import Mathlib

/-!
Shallow embedding of the frame-distribution core of Serial-Studio:

* `Plugins::Server` (src/app/src/Plugins/Server.cpp) — the plugin broadcast
  server: an enabled/disabled flag, a list of accepted TCP sockets and a list
  of frames pending the next 1 Hz flush.
* `JSON::FrameParser` (src/app/src/JSON/FrameParser.cpp) — the sandboxed
  script loader/validator and its active `parse` function.
* `JSON::Group` (src/app/src/JSON/Group.cpp) — reading a group from a JSON
  object.

Machine state that the claims quantify over (socket lists, pending frames,
script slots, JSON values) is modelled with plain Lean data; I/O effects
(writes to sockets, message boxes, qDebug) are modelled as returned values so
that theorems can talk about them.
-/

namespace Plugins

/-- A structured frame queued for broadcast.  The claims never inspect the
payload, so it is kept opaque as a tag. -/
structure Frame where
  data : Nat
deriving DecidableEq, Repr

/-- One accepted TCP socket: an identity plus its current writability
(`QTcpSocket::isWritable`).  Pointer identity in the C++ code is modelled by
decidable equality of the whole structure. -/
structure Socket where
  id : Nat
  writable : Bool
deriving DecidableEq, Repr

/-- The mutable state of `Plugins::Server`: `m_enabled`, `m_sockets`,
`m_frames`. -/
structure ServerState where
  enabled : Bool
  sockets : List Socket
  frames : List Frame
deriving DecidableEq, Repr

/-- State established by the constructor `Plugins::Server::Server()`:
`m_enabled(false)` with both containers default-empty. -/
def initState : ServerState := ⟨false, [], []⟩

/-- `Plugins::Server::setEnabled`: store the flag; if disabling, abort and
discard every socket; in every case clear the frame list (`m_frames.clear()`
runs unconditionally after the `if`). -/
def setEnabled (b : Bool) (s : ServerState) : ServerState :=
  let s1 : ServerState := { s with enabled := b }
  let s2 : ServerState := if b then s1 else { s1 with sockets := [] }
  { s2 with frames := [] }

/-- `Plugins::Server::registerFrame`: append the frame only while enabled. -/
def registerFrame (f : Frame) (s : ServerState) : ServerState :=
  if s.enabled then { s with frames := s.frames ++ [f] } else s

/-- `Plugins::Server::acceptConnection`: `nextPendingConnection()` is the
`pending` argument (`none` models a null socket).  A null socket while
enabled only shows a message box; while disabled a pending socket is closed
immediately; only while enabled is it appended to `m_sockets`.  The returned
`Bool` records whether the pending socket was closed immediately. -/
def acceptConnection (pending : Option Socket) (s : ServerState) :
    ServerState × Bool :=
  match pending with
  | none => (s, false)
  | some sock =>
    if s.enabled then ({ s with sockets := s.sockets ++ [sock] }, false)
    else (s, true)

/-- The socket-removal loop of `Plugins::Server::removeConnection`:
`for (i = 0; i < count; ++i) { if (at(i) == socket) { removeAt(i); i = 0; } }`.
After a removal the C++ loop sets `i = 0` and the `++i` of the `for` header
immediately advances it to `1`. -/
def removeLoop (target : Socket) (l : List Socket) (i : Nat) : List Socket :=
  if h : i < l.length then
    if l.get ⟨i, h⟩ = target then removeLoop target (l.eraseIdx i) 1
    else removeLoop target l (i + 1)
  else l
termination_by (l.length, l.length - i)
decreasing_by
  · exact Prod.Lex.left _ _ (by
      have := List.length_eraseIdx_add_one h
      omega)
  · exact Prod.Lex.right _ (by omega)

/-- `Plugins::Server::removeConnection`: the sender socket (or `none` for a
null sender) is removed from `m_sockets` by the index-resetting loop. -/
def removeConnection (sender : Option Socket) (s : ServerState) : ServerState :=
  match sender with
  | none => s
  | some sock => { s with sockets := removeLoop sock s.sockets 0 }

/-- `Plugins::Server::sendProcessedData` (the 1 Hz flush): return unchanged
if disabled, if `m_frames` is empty, or if `m_sockets` is empty; otherwise
serialize the batch, write it to every writable socket, then clear
`m_frames`.  The second component lists the sockets actually written to. -/
def sendProcessedData (s : ServerState) : ServerState × List Socket :=
  if !s.enabled then (s, [])
  else if s.frames.length ≤ 0 then (s, [])
  else if s.sockets.length < 1 then (s, [])
  else
    ({ s with frames := [] }, s.sockets.filter (fun sock => sock.writable))

/-- `Plugins::Server::sendRawData`: no state change; if enabled and at least
one socket exists, the base64 message is written to every writable socket
(the returned list). -/
def sendRawData (s : ServerState) : ServerState × List Socket :=
  if !s.enabled then (s, [])
  else if s.sockets.length < 1 then (s, [])
  else (s, s.sockets.filter (fun sock => sock.writable))

/-- `Plugins::Server::onErrorOccurred`: the handler only prints the error via
`qDebug`; it does not touch `m_sockets` or `m_frames`. -/
def onErrorOccurred (sender : Option Socket) (s : ServerState) : ServerState :=
  match sender with
  | none => s
  | some _ => s

/-- States of `Plugins::Server` reachable from the constructor state through
the public operations. -/
inductive Reachable : ServerState → Prop where
  | init : Reachable initState
  | setEnabled (b : Bool) {s : ServerState} : Reachable s →
      Reachable (setEnabled b s)
  | registerFrame (f : Frame) {s : ServerState} : Reachable s →
      Reachable (registerFrame f s)
  | acceptConnection (p : Option Socket) {s : ServerState} : Reachable s →
      Reachable (acceptConnection p s).1
  | removeConnection (p : Option Socket) {s : ServerState} : Reachable s →
      Reachable (removeConnection p s)
  | sendProcessedData {s : ServerState} : Reachable s →
      Reachable (sendProcessedData s).1
  | sendRawData {s : ServerState} : Reachable s →
      Reachable (sendRawData s).1
  | onErrorOccurred (p : Option Socket) {s : ServerState} : Reachable s →
      Reachable (onErrorOccurred p s)

end Plugins

namespace JSON

namespace FrameParser

/-- Error categories of `QJSValue::errorType()` distinguished by
`loadScript`. -/
inductive JSErrorType where
  | genericError
  | evalError
  | rangeError
  | referenceError
  | syntaxError
  | typeError
  | uriError
  | unknownError
deriving DecidableEq, Repr

/-- Outcome of calling a sandboxed function with `(frame, separator)`
arguments: either a value convertible to a string list, or a raised error. -/
inductive CallOutcome where
  | ok (fields : List String)
  | err (t : JSErrorType)

/-- A sandbox value as far as `loadScript` inspects it: `isNull`,
`isCallable`, and — for callables — the behavior on a call. -/
inductive JSVal where
  | undefinedVal
  | nullVal
  | nonCallable
  | callable (f : String × String → CallOutcome)

/-- `QJSValue::isNull`. -/
def jsIsNull : JSVal → Bool
  | .nullVal => true
  | _ => false

/-- `QJSValue::isCallable`. -/
def jsIsCallable : JSVal → Bool
  | .callable _ => true
  | _ => false

/-- `QJSValue::call` with a two-element argument list; calling a
non-callable value yields a `TypeError`. -/
def jsCall (v : JSVal) (args : String × String) : CallOutcome :=
  match v with
  | .callable f => f args
  | _ => .err .typeError

/-- `QJSValue::toVariant().toStringList()` applied to a call result: an
error value converts to the empty list. -/
def outcomeToStringList : CallOutcome → List String
  | .ok fields => fields
  | .err _ => []

/-- What `m_engine.evaluate(script, "", 1, &errors)` leaves behind for one
script source: the collected evaluation errors (line numbers, as strings)
and the resulting global `parse` property of the engine. -/
structure ScriptEval where
  errors : List String
  parseProp : JSVal

/-- The part of `JSON::FrameParser` state the claims are about:
`m_parseFunction` (a `QJSValue`, default-constructed to undefined). -/
structure ParserState where
  parseFunction : JSVal

/-- The error surfaced to the operator by a failed `loadScript`. -/
inductive ErrorReport where
  | syntaxErrorAtLine (line : String)
  | missingEntryPoint
  | smokeError (t : JSErrorType)
deriving DecidableEq, Repr

/-- Result of one `loadScript` run: the returned `Bool`, the state after the
run, the list of invocations made on the script's global `parse` value
during the run (in order, as `(frame, separator)` pairs), and the error
report shown, if any. -/
structure LoadOutcome where
  ok : Bool
  state : ParserState
  calls : List (String × String)
  report : Option ErrorReport

/-- `JSON::FrameParser::loadScript`: evaluate the script (collecting
`errors`), fail with the missing-entry-point message box if the global
`parse` is null or not callable, run the smoke invocation
`fun.call({"", ","})` (note the hard-coded `","`), then fail on collected
evaluation errors (first error's line), then fail on a smoke-call error
(categorized), and only otherwise set `m_parseFunction` and return true. -/
def loadScript (st : ParserState) (ev : ScriptEval) : LoadOutcome :=
  if jsIsNull ev.parseProp || !jsIsCallable ev.parseProp then
    { ok := false, state := st, calls := [],
      report := some .missingEntryPoint }
  else
    let ret := jsCall ev.parseProp ("", ",")
    if ev.errors ≠ [] then
      { ok := false, state := st, calls := [("", ",")],
        report := some (.syntaxErrorAtLine ev.errors.headI) }
    else
      match ret with
      | .err t =>
        { ok := false, state := st, calls := [("", ",")],
          report := some (.smokeError t) }
      | .ok _ =>
        { ok := true, state := { parseFunction := ev.parseProp },
          calls := [("", ",")], report := none }

/-- `JSON::FrameParser::parse`: call `m_parseFunction` with the frame and
separator and convert the result to a string list. -/
def parse (st : ParserState) (frame separator : String) : List String :=
  outcomeToStringList (jsCall st.parseFunction (frame, separator))

end FrameParser

end JSON

namespace Plugins

/-- The removal loop does nothing on an empty socket list. -/
theorem removeLoop_nil (target : Socket) (i : Nat) :
    removeLoop target [] i = [] := by
  rw [removeLoop]
  simp

/-- `setEnabled` stores its argument in `m_enabled`. -/
theorem setEnabled_enabled (b : Bool) (s : ServerState) :
    (setEnabled b s).enabled = b := by
  cases b <;> rfl

/-- `registerFrame` never changes the enabled flag. -/
theorem registerFrame_enabled (f : Frame) (s : ServerState) :
    (registerFrame f s).enabled = s.enabled := by
  unfold registerFrame
  split <;> rfl

/-- While disabled, `registerFrame` is the identity. -/
theorem registerFrame_of_disabled (f : Frame) (s : ServerState)
    (h : s.enabled = false) : registerFrame f s = s := by
  simp [registerFrame, h]

/-- `acceptConnection` never changes the enabled flag. -/
theorem acceptConnection_enabled (p : Option Socket) (s : ServerState) :
    ((acceptConnection p s).1).enabled = s.enabled := by
  cases p with
  | none => rfl
  | some sock =>
    unfold acceptConnection
    dsimp only
    split <;> rfl

/-- While disabled, `acceptConnection` closes the pending socket without
touching the state: the socket is never added to the active set. -/
theorem acceptConnection_of_disabled (p : Option Socket) (s : ServerState)
    (h : s.enabled = false) : (acceptConnection p s).1 = s := by
  cases p with
  | none => rfl
  | some sock => simp [acceptConnection, h]

/-- `removeConnection` never changes the enabled flag. -/
theorem removeConnection_enabled (p : Option Socket) (s : ServerState) :
    (removeConnection p s).enabled = s.enabled := by
  cases p <;> rfl

/-- `removeConnection` never touches the pending frames. -/
theorem removeConnection_frames (p : Option Socket) (s : ServerState) :
    (removeConnection p s).frames = s.frames := by
  cases p <;> rfl

/-- `removeConnection` keeps an empty socket list empty. -/
theorem removeConnection_sockets_of_nil (p : Option Socket) (s : ServerState)
    (h : s.sockets = []) : (removeConnection p s).sockets = [] := by
  cases p with
  | none => exact h
  | some sock =>
    show removeLoop sock s.sockets 0 = []
    rw [h, removeLoop_nil]

/-- `sendProcessedData` never changes the enabled flag. -/
theorem sendProcessedData_enabled (s : ServerState) :
    ((sendProcessedData s).1).enabled = s.enabled := by
  unfold sendProcessedData
  split
  · rfl
  · split
    · rfl
    · split
      · rfl
      · rfl

/-- While disabled, `sendProcessedData` returns at the first guard. -/
theorem sendProcessedData_of_disabled (s : ServerState)
    (h : s.enabled = false) : (sendProcessedData s).1 = s := by
  simp [sendProcessedData, h]

/-- `sendRawData` never changes the server state. -/
theorem sendRawData_fst (s : ServerState) : (sendRawData s).1 = s := by
  unfold sendRawData
  split
  · rfl
  · split
    · rfl
    · rfl

/-- `onErrorOccurred` never changes the server state. -/
theorem onErrorOccurred_eq (p : Option Socket) (s : ServerState) :
    onErrorOccurred p s = s := by
  cases p <;> rfl

end Plugins

/-- C1, counterexample: in the Enabled state with one pending frame and no
connected sockets, `sendProcessedData` returns at the `m_sockets.count() < 1`
guard and leaves `m_frames` non-empty — the claim that frames are discarded
"regardless of whether any plugin connection existed" fails. -/
theorem sendProcessedData_keeps_frames_without_sockets :
    (⟨true, [], [⟨0⟩]⟩ : Plugins.ServerState).enabled = true ∧
      (Plugins.sendProcessedData ⟨true, [], [⟨0⟩]⟩).1.frames = [⟨0⟩] := by
  exact ⟨rfl, rfl⟩

/-- C1, amended: in every Enabled state with at least one connection in the
active set, one invocation of `sendProcessedData` leaves `m_frames` empty,
regardless of whether any of those connections is writable; with no
connections the accumulated frames are retained for the next flush. -/
theorem sendProcessedData_clears_frames_with_socket
    (s : Plugins.ServerState) (henabled : s.enabled = true)
    (hsock : s.sockets ≠ []) :
    (Plugins.sendProcessedData s).1.frames = [] := by
  unfold Plugins.sendProcessedData
  rcases s with ⟨e, socks, frames⟩
  simp only at henabled
  subst henabled
  simp only [Bool.not_true, Bool.false_eq_true, if_false]
  rcases frames with _ | ⟨f, fs⟩
  · simp
  · simp only [List.length_cons, Nat.le_zero, Nat.succ_ne_zero, if_false]
    have : ¬ socks.length < 1 := by
      cases socks
      · exact absurd rfl hsock
      · simp
    simp [this]

/-- C1, witness: a concrete Enabled state with a single non-writable socket
and one pending frame; the flush clears the batch even though nothing was
writable. -/
theorem sendProcessedData_clears_frames_with_socket_witness :
    (Plugins.sendProcessedData
        ⟨true, [⟨7, false⟩], [⟨0⟩]⟩ : Plugins.ServerState × _).1.frames
      = [] :=
  sendProcessedData_clears_frames_with_socket ⟨true, [⟨7, false⟩], [⟨0⟩]⟩ rfl
    (by decide)

/-- C2 (code bug): when a socket error occurs on connection 1 of the active
set {1, 2}, the error handler `onErrorOccurred` leaves the whole state
untouched — connection 1 is still in the active set, even though the
handler's own comment says it "disconnects the socket from the host and
displays the error in a message box". -/
theorem onErrorOccurred_does_not_remove_connection :
    Plugins.onErrorOccurred (some ⟨1, true⟩)
        (⟨true, [⟨1, true⟩, ⟨2, true⟩], []⟩ : Plugins.ServerState)
      = ⟨true, [⟨1, true⟩, ⟨2, true⟩], []⟩ ∧
    (⟨1, true⟩ : Plugins.Socket) ∈
      (Plugins.onErrorOccurred (some ⟨1, true⟩)
        (⟨true, [⟨1, true⟩, ⟨2, true⟩], []⟩ : Plugins.ServerState)).sockets := by
  exact ⟨rfl, by decide⟩

/-- C9: in every reachable state of the plugin server, Disabled implies that
the active connection set and the pending-frame batch are both empty.  The
initial state is Disabled with both empty, and every operation preserves the
property: disabling discards every connection and clears the batch, and a
connection accepted while Disabled is closed without being added. -/
theorem server_disabled_invariant (s : Plugins.ServerState)
    (h : Plugins.Reachable s) (hdis : s.enabled = false) :
    s.sockets = [] ∧ s.frames = [] := by
  revert hdis
  induction h with
  | init => exact fun _ => ⟨rfl, rfl⟩
  | setEnabled b h ih =>
    intro hdis
    rw [Plugins.setEnabled_enabled] at hdis
    subst hdis
    simp [Plugins.setEnabled]
  | registerFrame f h ih =>
    intro hdis
    rw [Plugins.registerFrame_enabled] at hdis
    rw [Plugins.registerFrame_of_disabled _ _ hdis]
    exact ih hdis
  | acceptConnection p h ih =>
    intro hdis
    rw [Plugins.acceptConnection_enabled] at hdis
    rw [Plugins.acceptConnection_of_disabled _ _ hdis]
    exact ih hdis
  | removeConnection p h ih =>
    intro hdis
    rw [Plugins.removeConnection_enabled] at hdis
    obtain ⟨h1, h2⟩ := ih hdis
    refine ⟨Plugins.removeConnection_sockets_of_nil _ _ h1, ?_⟩
    rw [Plugins.removeConnection_frames]
    exact h2
  | sendProcessedData h ih =>
    intro hdis
    rw [Plugins.sendProcessedData_enabled] at hdis
    rw [Plugins.sendProcessedData_of_disabled _ hdis]
    exact ih hdis
  | sendRawData h ih =>
    intro hdis
    rw [Plugins.sendRawData_fst] at hdis ⊢
    exact ih hdis
  | onErrorOccurred p h ih =>
    intro hdis
    rw [Plugins.onErrorOccurred_eq] at hdis ⊢
    exact ih hdis

/-- C9, witness: enabling, accepting a connection, registering a frame and
then disabling yields a reachable Disabled state with empty socket and frame
lists. -/
theorem server_disabled_invariant_witness :
    (Plugins.setEnabled false
        (Plugins.registerFrame ⟨3⟩
          (Plugins.acceptConnection (some ⟨5, true⟩)
            (Plugins.setEnabled true Plugins.initState)).1)).sockets = [] ∧
    (Plugins.setEnabled false
        (Plugins.registerFrame ⟨3⟩
          (Plugins.acceptConnection (some ⟨5, true⟩)
            (Plugins.setEnabled true Plugins.initState)).1)).frames = [] :=
  server_disabled_invariant _
    (Plugins.Reachable.setEnabled false
      (Plugins.Reachable.registerFrame ⟨3⟩
        (Plugins.Reachable.acceptConnection (some ⟨5, true⟩)
          (Plugins.Reachable.setEnabled true Plugins.Reachable.init))))
    rfl

/-- C10: `setEnabled` clears `m_frames` for either argument value (the
`m_frames.clear()` runs after the conditional block), while `m_sockets` is
cleared only when disabling and untouched when enabling. -/
theorem setEnabled_always_clears_frames (b : Bool) (s : Plugins.ServerState) :
    (Plugins.setEnabled b s).frames = [] ∧
      (Plugins.setEnabled b s).enabled = b ∧
      (Plugins.setEnabled true s).sockets = s.sockets ∧
      (Plugins.setEnabled false s).sockets = [] := by
  cases b <;> simp [Plugins.setEnabled]

/-- C3: whenever `loadScript` fails — in any of its phases — the stored
`m_parseFunction` is unchanged, and therefore `FrameParser::parse` invokes
exactly the function that was active before the load attempt (or the
default undefined value, if none was). -/
theorem loadScript_failure_preserves_parseFunction
    (st : JSON.FrameParser.ParserState) (ev : JSON.FrameParser.ScriptEval)
    (h : (JSON.FrameParser.loadScript st ev).ok = false) :
    (JSON.FrameParser.loadScript st ev).state = st ∧
      ∀ frame sep : String,
        JSON.FrameParser.parse (JSON.FrameParser.loadScript st ev).state
            frame sep
          = JSON.FrameParser.parse st frame sep := by
  have hstate : (JSON.FrameParser.loadScript st ev).state = st := by
    by_cases h1 : (JSON.FrameParser.jsIsNull ev.parseProp
        || !JSON.FrameParser.jsIsCallable ev.parseProp) = true
    · simp [JSON.FrameParser.loadScript, h1]
    · by_cases h2 : ev.errors = []
      · cases hret : JSON.FrameParser.jsCall ev.parseProp ("", ",") with
        | ok fields =>
          exfalso
          simp [JSON.FrameParser.loadScript, h1, h2, hret] at h
        | err t =>
          simp [JSON.FrameParser.loadScript, h1, h2, hret]
      · simp [JSON.FrameParser.loadScript, h1, h2]
  exact ⟨hstate, fun frame sep => by rw [hstate]⟩

/-- C3, witness: loading a script whose evaluation leaves no callable
`parse` fails and leaves the previous (here: undefined) parse slot in
place, so `parse` behaves as before. -/
theorem loadScript_failure_preserves_parseFunction_witness :
    (JSON.FrameParser.loadScript ⟨.undefinedVal⟩ ⟨[], .nonCallable⟩).ok
        = false ∧
    (JSON.FrameParser.loadScript ⟨.undefinedVal⟩ ⟨[], .nonCallable⟩).state
        = ⟨.undefinedVal⟩ ∧
    JSON.FrameParser.parse
        (JSON.FrameParser.loadScript ⟨.undefinedVal⟩
          ⟨[], .nonCallable⟩).state "a,b" ";"
      = JSON.FrameParser.parse ⟨.undefinedVal⟩ "a,b" ";" :=
  ⟨rfl,
   (loadScript_failure_preserves_parseFunction ⟨.undefinedVal⟩
      ⟨[], .nonCallable⟩ rfl).1,
   (loadScript_failure_preserves_parseFunction ⟨.undefinedVal⟩
      ⟨[], .nonCallable⟩ rfl).2 "a,b" ";"⟩

/-- C4, counterexample: with the configured field separator being `";"`, a
load attempt on a script exposing a callable `parse` makes exactly one smoke
call — but its separator argument is the hard-coded `","`, not the
configured `";"` (`QJSValueList args = {"", ","};`). -/
theorem loadScript_smoke_ignores_configured_separator :
    (JSON.FrameParser.loadScript ⟨.undefinedVal⟩
        ⟨[], .callable (fun _ => .ok [])⟩).calls = [("", ",")] ∧
    (JSON.FrameParser.loadScript ⟨.undefinedVal⟩
        ⟨[], .callable (fun _ => .ok [])⟩).calls ≠ [("", ";")] := by
  refine ⟨rfl, ?_⟩
  rw [show (JSON.FrameParser.loadScript ⟨.undefinedVal⟩
      ⟨[], .callable (fun _ => .ok [])⟩).calls = [("", ",")] from rfl]
  decide

/-- C4, amended: whenever the contract check passes (the global `parse` is
callable), `loadScript` calls it exactly once, with the empty string as the
frame argument and the literal string `","` as the separator argument,
independently of the configured field separator. -/
theorem loadScript_smoke_call_args (st : JSON.FrameParser.ParserState)
    (ev : JSON.FrameParser.ScriptEval)
    (h : JSON.FrameParser.jsIsCallable ev.parseProp = true) :
    (JSON.FrameParser.loadScript st ev).calls = [("", ",")] := by
  cases hv : ev.parseProp with
  | callable f =>
    by_cases h2 : ev.errors = []
    · cases hret : f ("", ",") with
      | ok fields =>
        simp [JSON.FrameParser.loadScript, hv, JSON.FrameParser.jsIsNull,
          JSON.FrameParser.jsIsCallable, JSON.FrameParser.jsCall, h2, hret]
      | err t =>
        simp [JSON.FrameParser.loadScript, hv, JSON.FrameParser.jsIsNull,
          JSON.FrameParser.jsIsCallable, JSON.FrameParser.jsCall, h2, hret]
    · simp [JSON.FrameParser.loadScript, hv, JSON.FrameParser.jsIsNull,
        JSON.FrameParser.jsIsCallable, JSON.FrameParser.jsCall, h2]
  | undefinedVal =>
    rw [hv] at h
    exact absurd h (by decide)
  | nullVal =>
    rw [hv] at h
    exact absurd h (by decide)
  | nonCallable =>
    rw [hv] at h
    exact absurd h (by decide)

/-- C4, witness: a concrete load attempt with a callable `parse` makes the
single smoke call `parse("", ",")`. -/
theorem loadScript_smoke_call_args_witness :
    (JSON.FrameParser.loadScript ⟨.undefinedVal⟩
        ⟨[], .callable (fun _ => .ok ["x"])⟩).calls = [("", ",")] :=
  loadScript_smoke_call_args ⟨.undefinedVal⟩
    ⟨[], .callable (fun _ => .ok ["x"])⟩ rfl

/-- C5: if the global `parse` left by evaluation is not callable (absent,
null, or any non-callable value), `loadScript` returns false and surfaces
the missing-entry-point message ("No parse() function has been
declared!"). -/
theorem loadScript_missing_entry_point (st : JSON.FrameParser.ParserState)
    (ev : JSON.FrameParser.ScriptEval)
    (h : JSON.FrameParser.jsIsCallable ev.parseProp = false) :
    (JSON.FrameParser.loadScript st ev).ok = false ∧
      (JSON.FrameParser.loadScript st ev).report
        = some .missingEntryPoint := by
  have hc : (JSON.FrameParser.jsIsNull ev.parseProp
      || !JSON.FrameParser.jsIsCallable ev.parseProp) = true := by
    rw [h]
    simp
  simp [JSON.FrameParser.loadScript, hc]

/-- C5, witness: a script evaluation leaving `parse` set to null fails with
the missing-entry-point report. -/
theorem loadScript_missing_entry_point_witness :
    (JSON.FrameParser.loadScript ⟨.undefinedVal⟩ ⟨[], .nullVal⟩).ok
        = false ∧
    (JSON.FrameParser.loadScript ⟨.undefinedVal⟩ ⟨[], .nullVal⟩).report
        = some .missingEntryPoint :=
  loadScript_missing_entry_point ⟨.undefinedVal⟩ ⟨[], .nullVal⟩ rfl

/-- C6, counterexample: a script whose evaluation collects the error line
"3" but leaves no callable `parse` fails with the missing-entry-point
report, not with a syntax error carrying line 3 — the entry-point check
runs before the collected-errors check. -/
theorem loadScript_errors_may_report_missing_entry :
    (JSON.FrameParser.loadScript ⟨.undefinedVal⟩
        ⟨["3"], .undefinedVal⟩).ok = false ∧
    (JSON.FrameParser.loadScript ⟨.undefinedVal⟩
        ⟨["3"], .undefinedVal⟩).report = some .missingEntryPoint ∧
    (JSON.FrameParser.loadScript ⟨.undefinedVal⟩
        ⟨["3"], .undefinedVal⟩).report
      ≠ some (.syntaxErrorAtLine "3") := by
  refine ⟨rfl, rfl, ?_⟩
  rw [show (JSON.FrameParser.loadScript ⟨.undefinedVal⟩
      ⟨["3"], .undefinedVal⟩).report = some .missingEntryPoint from rfl]
  decide

/-- C6, amended: whenever evaluation collects one or more errors, loading
fails; the surfaced report is the syntax error carrying the first collected
error's line number provided the global scope exposes a callable `parse`
(which is checked first), and the missing-entry-point report otherwise. -/
theorem loadScript_eval_errors_fail (st : JSON.FrameParser.ParserState)
    (ev : JSON.FrameParser.ScriptEval) (h : ev.errors ≠ []) :
    (JSON.FrameParser.loadScript st ev).ok = false ∧
      (JSON.FrameParser.jsIsCallable ev.parseProp = true →
        (JSON.FrameParser.loadScript st ev).report
          = some (.syntaxErrorAtLine ev.errors.headI)) ∧
      (JSON.FrameParser.jsIsCallable ev.parseProp = false →
        (JSON.FrameParser.loadScript st ev).report
          = some .missingEntryPoint) := by
  cases hv : ev.parseProp with
  | callable f =>
    refine ⟨?_, fun _ => ?_, fun hcf => ?_⟩
    · simp [JSON.FrameParser.loadScript, hv, JSON.FrameParser.jsIsNull,
        JSON.FrameParser.jsIsCallable, h]
    · simp [JSON.FrameParser.loadScript, hv, JSON.FrameParser.jsIsNull,
        JSON.FrameParser.jsIsCallable, h]
    · simp [JSON.FrameParser.jsIsCallable] at hcf
  | undefinedVal =>
    refine ⟨?_, fun hct => ?_, fun _ => ?_⟩
    · simp [JSON.FrameParser.loadScript, hv, JSON.FrameParser.jsIsNull,
        JSON.FrameParser.jsIsCallable]
    · simp [JSON.FrameParser.jsIsCallable] at hct
    · simp [JSON.FrameParser.loadScript, hv, JSON.FrameParser.jsIsNull,
        JSON.FrameParser.jsIsCallable]
  | nullVal =>
    refine ⟨?_, fun hct => ?_, fun _ => ?_⟩
    · simp [JSON.FrameParser.loadScript, hv, JSON.FrameParser.jsIsNull,
        JSON.FrameParser.jsIsCallable]
    · simp [JSON.FrameParser.jsIsCallable] at hct
    · simp [JSON.FrameParser.loadScript, hv, JSON.FrameParser.jsIsNull,
        JSON.FrameParser.jsIsCallable]
  | nonCallable =>
    refine ⟨?_, fun hct => ?_, fun _ => ?_⟩
    · simp [JSON.FrameParser.loadScript, hv, JSON.FrameParser.jsIsNull,
        JSON.FrameParser.jsIsCallable]
    · simp [JSON.FrameParser.jsIsCallable] at hct
    · simp [JSON.FrameParser.loadScript, hv, JSON.FrameParser.jsIsNull,
        JSON.FrameParser.jsIsCallable]

/-- C6, witness: a script collecting the error line "7" while exposing a
callable `parse` fails with the syntax-error report for line 7. -/
theorem loadScript_eval_errors_fail_witness :
    (JSON.FrameParser.loadScript ⟨.undefinedVal⟩
        ⟨["7"], .callable (fun _ => .ok [])⟩).ok = false ∧
    (JSON.FrameParser.loadScript ⟨.undefinedVal⟩
        ⟨["7"], .callable (fun _ => .ok [])⟩).report
      = some (.syntaxErrorAtLine "7") :=
  ⟨(loadScript_eval_errors_fail ⟨.undefinedVal⟩
      ⟨["7"], .callable (fun _ => .ok [])⟩ (by decide)).1,
   (loadScript_eval_errors_fail ⟨.undefinedVal⟩
      ⟨["7"], .callable (fun _ => .ok [])⟩ (by decide)).2.1 rfl⟩

namespace JSON

end JSON

namespace JSON

end JSON

